import Mathlib

/-!
Shallow embedding of `battlab_one.py`, a serial-protocol driver for the
BattLab One power-analysis instrument, together with theorems checking the
design specification's claims against it.

Modelling conventions:
* a byte is a `Nat` (values below 256 in practice);
* Python floats are modelled as exact rationals `ℚ`;
* the serial port is a pair of byte lists: `input` (bytes available to be
  read) and `output` (bytes written so far); a blocking read that cannot be
  satisfied from `input` is modelled as a transport failure;
* Python exceptions are modelled with `Except Err`, naming each raise site
  with the specification's error taxonomy (`TypeError` raised by
  `get_sample` when no range was ever selected is the spec's
  `InvalidState`; `struct.error` in `calibrate` is the spec's
  `ProtocolError`);
* `time.sleep t` is recorded by appending `t` (seconds) to a `slept` trace.
-/

namespace BattLab

/-- Error taxonomy of the specification, used to name the Python raise
sites of the source. -/
inductive Err where
  | transportError
  | protocolError
  | invalidState
  | typeError
  | zeroDivisionError
  deriving DecidableEq, Repr

/-- Result of a transaction's `postprocess` function.  The default
postprocess `bytes.hex` renders the response bytes as a hex string, which
is injective on the bytes, so it is modelled as the `hex` tag carrying the
bytes; `get_calibration`'s `lambda b: b` returns the raw bytes;
`get_version` returns a number; `reset`'s `lambda b: time.sleep(1)`
returns Python `None`. -/
inductive Value where
  | hex : List Nat → Value
  | bytes : List Nat → Value
  | num : ℚ → Value
  | unit : Value
  deriving DecidableEq, Repr

/-- Tag for the `postprocess` field of a `Transaction` (the source stores
a Python function; the four functions that occur are enumerated here). -/
inductive Postprocess where
  | hex
  | raw
  | toVersion
  | sleepSettle
  deriving DecidableEq, Repr

/-- The namedtuple `Transaction(cmd, response_size, postprocess)` with
defaults `response_size = 0`, `postprocess = bytes.hex`. -/
structure Transaction where
  cmd : List Nat
  response_size : Nat
  postprocess : Postprocess
  deriving DecidableEq, Repr

/-- The command names registered in the `transactions` dict of the
source, as an enumeration. -/
inductive Cmd where
  | set_voltage_1v2
  | set_voltage_1v5
  | set_voltage_2v4
  | set_voltage_3v0
  | set_voltage_3v2
  | set_voltage_3v6
  | set_voltage_3v7
  | set_voltage_4v2
  | set_voltage_4v5
  | set_psu_on
  | set_psu_off
  | get_calibration
  | get_config
  | get_version
  | set_current_low
  | set_current_high
  | set_averages_1
  | set_averages_4
  | set_averages_16
  | set_averages_64
  | reset
  | set_sample_trig
  | set_sample_off
  | set_sample_on
  deriving DecidableEq, Repr

/-- The string key under which each command is registered (the source's
dict keys; `_do_transaction` branches on prefixes of these strings). -/
def Cmd.name : Cmd → String
  | .set_voltage_1v2 => "set_voltage_1v2"
  | .set_voltage_1v5 => "set_voltage_1v5"
  | .set_voltage_2v4 => "set_voltage_2v4"
  | .set_voltage_3v0 => "set_voltage_3v0"
  | .set_voltage_3v2 => "set_voltage_3v2"
  | .set_voltage_3v6 => "set_voltage_3v6"
  | .set_voltage_3v7 => "set_voltage_3v7"
  | .set_voltage_4v2 => "set_voltage_4v2"
  | .set_voltage_4v5 => "set_voltage_4v5"
  | .set_psu_on => "set_psu_on"
  | .set_psu_off => "set_psu_off"
  | .get_calibration => "get_calibration"
  | .get_config => "get_config"
  | .get_version => "get_version"
  | .set_current_low => "set_current_low"
  | .set_current_high => "set_current_high"
  | .set_averages_1 => "set_averages_1"
  | .set_averages_4 => "set_averages_4"
  | .set_averages_16 => "set_averages_16"
  | .set_averages_64 => "set_averages_64"
  | .reset => "reset"
  | .set_sample_trig => "set_sample_trig"
  | .set_sample_off => "set_sample_off"
  | .set_sample_on => "set_sample_on"

/-- Python `s.startswith(p)`, computed on the character lists so that it
reduces definitionally on literals. -/
def strStartsWith (s p : String) : Bool := p.data.isPrefixOf s.data

/-- The `transactions` dict: wire command bytes (ASCII codes), expected
response size, and postprocess, exactly as in the source. -/
def transactions : Cmd → Transaction
  | .set_voltage_1v2 => ⟨[97], 0, .hex⟩   -- b'a'
  | .set_voltage_1v5 => ⟨[98], 0, .hex⟩   -- b'b'
  | .set_voltage_2v4 => ⟨[99], 0, .hex⟩   -- b'c'
  | .set_voltage_3v0 => ⟨[100], 0, .hex⟩  -- b'd'
  | .set_voltage_3v2 => ⟨[111], 0, .hex⟩  -- b'o'
  | .set_voltage_3v6 => ⟨[110], 0, .hex⟩  -- b'n'
  | .set_voltage_3v7 => ⟨[101], 0, .hex⟩  -- b'e'
  | .set_voltage_4v2 => ⟨[102], 0, .hex⟩  -- b'f'
  | .set_voltage_4v5 => ⟨[103], 0, .hex⟩  -- b'g'
  | .set_psu_on => ⟨[104], 0, .hex⟩       -- b'h'
  | .set_psu_off => ⟨[105], 0, .hex⟩      -- b'i'
  | .get_calibration => ⟨[106], 34, .raw⟩ -- b'j', lambda b: b
  | .get_config => ⟨[109], 4, .hex⟩       -- b'm'
  | .get_version => ⟨[112], 2, .toVersion⟩ -- b'p', int.from_bytes(b,'big')/1000
  | .set_current_low => ⟨[107], 0, .hex⟩  -- b'k'
  | .set_current_high => ⟨[108], 0, .hex⟩ -- b'l'
  | .set_averages_1 => ⟨[115], 0, .hex⟩   -- b's'
  | .set_averages_4 => ⟨[116], 0, .hex⟩   -- b't'
  | .set_averages_16 => ⟨[117], 0, .hex⟩  -- b'u'
  | .set_averages_64 => ⟨[118], 0, .hex⟩  -- b'v'
  | .reset => ⟨[119], 0, .sleepSettle⟩    -- b'w', lambda b: time.sleep(1)
  | .set_sample_trig => ⟨[120], 0, .hex⟩  -- b'x'
  | .set_sample_off => ⟨[121], 0, .hex⟩   -- b'y'
  | .set_sample_on => ⟨[122], 0, .hex⟩    -- b'z'

/-- The `cal_indexes` dict: indexes into the calibration data for sense
resistor scaling values.  `none` models a `KeyError` for absent keys. -/
def cal_indexes : Cmd → Option Nat
  | .set_voltage_1v2 => some 0
  | .set_voltage_1v5 => some 1
  | .set_voltage_2v4 => some 2
  | .set_voltage_3v0 => some 3
  | .set_voltage_3v2 => some 3
  | .set_voltage_3v6 => some 4
  | .set_voltage_3v7 => some 5
  | .set_voltage_4v2 => some 6
  | .set_voltage_4v5 => some 7
  | _ => none

/-- The `offset_indexes` dict: indexes into the calibration data for
sleep current offset values. -/
def offset_indexes : Cmd → Option Nat
  | .set_voltage_1v2 => some 8
  | .set_voltage_1v5 => some 9
  | .set_voltage_2v4 => some 10
  | .set_voltage_3v0 => some 11
  | .set_voltage_3v2 => some 12
  | .set_voltage_3v6 => some 13
  | .set_voltage_3v7 => some 14
  | .set_voltage_4v2 => some 15
  | .set_voltage_4v5 => some 16
  | _ => none

/-- Python `int.from_bytes(bs, 'big')`. -/
def fromBytesBE (bs : List Nat) : Nat := bs.foldl (fun acc b => acc * 256 + b) 0

/-- Big-endian grouping of a byte list into 16-bit values, the core of
`struct.unpack('>17H', raw)`. -/
def toU16BE : List Nat → List Nat
  | a :: b :: rest => (a * 256 + b) :: toU16BE rest
  | _ => []

/-- Python `struct.unpack('>17H', raw)`: succeeds exactly on 34-byte
payloads, producing the 17 big-endian 16-bit values in order; `none`
models the `struct.error` raised on any other length. -/
def unpack17H (raw : List Nat) : Option (List Nat) :=
  if raw.length = 34 then some (toU16BE raw) else none

/-- The serial port abstraction: bytes available to read, and bytes
written so far. -/
structure SerialPort where
  input : List Nat
  output : List Nat
  deriving DecidableEq, Repr

/-- Model of `self.sp.write(bs)`: append the bytes to the outgoing stream. -/
def SerialPort.write (sp : SerialPort) (bs : List Nat) : SerialPort :=
  ⟨sp.input, sp.output ++ bs⟩

/-- Model of `self.sp.read(n)`: the port was opened without a timeout, so the read
blocks until exactly `n` bytes are available; a read that cannot be
satisfied from the available input is modelled as a transport failure. -/
def SerialPort.read (sp : SerialPort) (n : Nat) : Except Err (List Nat × SerialPort) :=
  if n ≤ sp.input.length then
    Except.ok (sp.input.take n, ⟨sp.input.drop n, sp.output⟩)
  else
    Except.error Err.transportError

/-- The `BattLabOne` session object: serial port, calibration table
(17 entries once loaded), and the session state `cal_adj` / `offset` /
`low_current`, all initialised to `None` in `__init__`.  `slept` records
the `time.sleep` calls performed, in order, in seconds. -/
structure BattLabOne where
  sp : SerialPort
  calibration_data : Option (List Nat)
  cal_adj : Option ℚ
  offset : Option Nat
  low_current : Option Bool
  slept : List ℚ
  deriving DecidableEq, Repr

/-- Python `time.sleep t` performed by the session: record `t` on the trace. -/
def BattLabOne.sleep (self : BattLabOne) (t : ℚ) : BattLabOne :=
  { self with slept := self.slept ++ [t] }

/-- Apply a transaction's `postprocess` function to the response bytes;
`reset`'s postprocess performs `time.sleep(1)` and returns `None`. -/
def postprocess_apply (p : Postprocess) (response : List Nat) (self : BattLabOne) :
    Value × BattLabOne :=
  match p with
  | .hex => (Value.hex response, self)
  | .raw => (Value.bytes response, self)
  | .toVersion => (Value.num ((fromBytesBE response : ℚ) / 1000), self)
  | .sleepSettle => (Value.unit, self.sleep 1)

/-- Lines 99-101 of the source: give the firmware time to do whatever,
since we can't know when it's completed — a 10 ms sleep after any
zero-response-size transaction. -/
def settle (self : BattLabOne) (t : Transaction) : BattLabOne :=
  if t.response_size = 0 then self.sleep (1 / 100) else self

/-- Lines 103-106 of the source: update calibration and offset if we've
just set the supply voltage.  A failure of the subscripts
(`self.calibration_data` still `None`) models the `TypeError` Python
would raise there. -/
def voltage_update (self : BattLabOne) (c : Cmd) : Except Err BattLabOne :=
  if strStartsWith c.name "set_voltage_" then
    match self.calibration_data, cal_indexes c, offset_indexes c with
    | some cal, some ci, some oi =>
      match cal.get? ci, cal.get? oi with
      | some a, some o =>
        .ok { self with cal_adj := some ((a : ℚ) / 1000), offset := some o }
      | _, _ => .error Err.typeError
    | _, _, _ => .error Err.typeError
  else .ok self

/-- Lines 108-110 of the source: remember if we've got the low-current
sense resistor enabled. -/
def current_update (self : BattLabOne) (c : Cmd) : BattLabOne :=
  if strStartsWith c.name "set_current_" then
    { self with low_current := some (c.name == "set_current_low") }
  else self

/-- Model of `BattLabOne._do_transaction`: look up the command, write its wire
bytes, read exactly `response_size` bytes, sleep 10 ms when the response
is empty, update the session state for `set_voltage_*` / `set_current_*`
commands, and apply the postprocess. -/
def do_transaction (self : BattLabOne) (c : Cmd) : Except Err (Value × BattLabOne) :=
  let transaction := transactions c
  match (self.sp.write transaction.cmd).read transaction.response_size with
  | .error e => .error e
  | .ok (response, sp1) =>
    match voltage_update (settle { self with sp := sp1 } transaction) c with
    | .error e => .error e
    | .ok s3 =>
      .ok (postprocess_apply transaction.postprocess response (current_update s3 c))

/-- Model of `BattLabOne.get_sample`: read a raw 2-byte sample, interpret it as a
big-endian unsigned integer, pick the sense resistor scale (`99` when the
low-current range is enabled, else `cal_adj`), and convert to milliamps.
`Err.invalidState` models the `TypeError` raised when the selected scale
is still `None`; `Err.zeroDivisionError` models float division by zero.
The `- self.offset` term is commented out in the source and therefore
absent here. -/
def get_sample (self : BattLabOne) : Except Err (ℚ × BattLabOne) :=
  match self.sp.read 2 with
  | .error e => .error e
  | .ok (raw_sample, sp1) =>
    let s1 : BattLabOne := { self with sp := sp1 }
    let sample := fromBytesBE raw_sample
    -- Python: 99 if self.low_current else self.cal_adj (None is falsy)
    let scaleOpt : Except Err ℚ :=
      match s1.low_current with
      | some true => .ok 99
      | _ =>
        match s1.cal_adj with
        | some c => .ok c
        | none => .error Err.invalidState
    match scaleOpt with
    | .error e => .error e
    | .ok sense_resistor_scale =>
      if sense_resistor_scale = 0 then .error Err.zeroDivisionError
      else
        let lsb : ℚ := 25 / 10000  -- 0.0025, "magic value?"
        .ok ((sample : ℚ) * lsb / sense_resistor_scale, s1)

/-- The `struct.unpack` step of `calibrate`, with `struct.error` named
`ProtocolError` as in the specification's taxonomy. -/
def parse_calibration (raw : List Nat) : Except Err (List Nat) :=
  match unpack17H raw with
  | some vals => .ok vals
  | none => .error Err.protocolError

/-- Model of `BattLabOne.calibrate`: run the `get_calibration` transaction and
store the parsed 17-entry table. -/
def calibrate (self : BattLabOne) : Except Err BattLabOne :=
  match do_transaction self Cmd.get_calibration with
  | .error e => .error e
  | .ok (v, s1) =>
    match v with
    | Value.bytes raw =>
      match parse_calibration raw with
      | .ok vals => .ok { s1 with calibration_data := some vals }
      | .error e => .error e
    | _ => .error Err.protocolError

end BattLab

namespace BattLab

/-! ### Helper lemmas -/

lemma get?_of_lt (l : List Nat) (i : Nat) (h : i < l.length) :
    l.get? i = some (l.getD i 0) := by
  rw [List.getD_eq_getElem l 0 h, List.get?_eq_getElem?, List.getElem?_eq_getElem h]

lemma fromBytesBE_pair (b0 b1 : Nat) : fromBytesBE [b0, b1] = b0 * 256 + b1 := by
  simp [fromBytesBE]

/-! ### Claims about the sample decoder -/

/-- Claim C1: with the current range selected, `get_sample` reads two bytes,
interprets them as a big-endian unsigned 16-bit integer `n`, and returns
`n * 0.0025 / s` milliamps where `s = 99` when the low-current range is
enabled and `s = cal_adj` otherwise. -/
theorem C1_decode_sample (self : BattLabOne) (b0 b1 : Nat) (rest : List Nat)
    (b : Bool) (s : ℚ)
    (hin : self.sp.input = b0 :: b1 :: rest)
    (hlc : self.low_current = some b)
    (hs : if b then s = 99 else self.cal_adj = some s)
    (hs0 : s ≠ 0) :
    get_sample self =
      .ok (((b0 * 256 + b1 : Nat) : ℚ) * (25 / 10000) / s,
        { self with sp := ⟨rest, self.sp.output⟩ }) := by
  obtain ⟨⟨inp, outp⟩, cd, ca, off, lc, sl⟩ := self
  simp only at hin hlc hs
  subst hin hlc
  cases b with
  | true =>
    simp only [if_pos rfl] at hs
    subst hs
    simp [get_sample, SerialPort.read, fromBytesBE, hs0]
  | false =>
    simp at hs
    subst hs
    simp [get_sample, SerialPort.read, fromBytesBE, hs0]

/-- Witness for C1: raw bytes 0x00 0x64 with `cal_adj = 2` and the
high-current range give 0.125 mA. -/
theorem C1_decode_sample_witness :
    get_sample ⟨⟨[0, 100], [], ⟩, none, some 2, none, some false, []⟩ =
      .ok ((1 / 8 : ℚ), ⟨⟨[], []⟩, none, some 2, none, some false, []⟩) := by
  have h := C1_decode_sample ⟨⟨[0, 100], []⟩, none, some 2, none, some false, []⟩
    0 100 [] false 2 rfl rfl (by simp) (by norm_num)
  norm_num at h
  exact h

/-- Claim C4: calling `get_sample` before any voltage or current range has
been selected (both session fields still `None`) fails; the `TypeError`
raised by Python's `sample * lsb / None` is the specification's
`InvalidState`. -/
theorem C4_sample_before_selection (self : BattLabOne) (b0 b1 : Nat) (rest : List Nat)
    (hin : self.sp.input = b0 :: b1 :: rest)
    (hca : self.cal_adj = none)
    (hlc : self.low_current = none) :
    get_sample self = .error Err.invalidState := by
  obtain ⟨⟨inp, outp⟩, cd, ca, off, lc, sl⟩ := self
  simp only at hin hca hlc
  subst hin hca hlc
  simp [get_sample, SerialPort.read]

/-- Witness for C4. -/
theorem C4_sample_before_selection_witness :
    get_sample ⟨⟨[0, 100], []⟩, none, none, none, none, []⟩ =
      .error Err.invalidState :=
  C4_sample_before_selection ⟨⟨[0, 100], []⟩, none, none, none, none, []⟩
    0 100 [] rfl rfl rfl

/-- Claim C10: once the low-current range is enabled, `get_sample`
succeeds and returns `raw * 0.0025 / 99` even though `cal_adj` was never
set: the low-current branch never reads `cal_adj`. -/
theorem C10_low_current_no_voltage (self : BattLabOne) (b0 b1 : Nat) (rest : List Nat)
    (hin : self.sp.input = b0 :: b1 :: rest)
    (hlc : self.low_current = some true)
    (hca : self.cal_adj = none) :
    get_sample self =
      .ok (((b0 * 256 + b1 : Nat) : ℚ) * (25 / 10000) / 99,
        { self with sp := ⟨rest, self.sp.output⟩ }) := by
  obtain ⟨⟨inp, outp⟩, cd, ca, off, lc, sl⟩ := self
  simp only at hin hlc hca
  subst hin hlc hca
  simp [get_sample, SerialPort.read, fromBytesBE]

/-- Witness for C10: bytes 0x00 0x64 in low-current mode give
`100 * 0.0025 / 99 = 1/396` mA with `cal_adj` still unset. -/
theorem C10_low_current_no_voltage_witness :
    get_sample ⟨⟨[0, 100], []⟩, none, none, none, some true, []⟩ =
      .ok ((1 / 396 : ℚ), ⟨⟨[], []⟩, none, none, none, some true, []⟩) := by
  have h := C10_low_current_no_voltage ⟨⟨[0, 100], []⟩, none, none, none, some true, []⟩
    0 100 [] rfl rfl rfl
  norm_num at h
  exact h

/-- Claim C7: the `get_version` decoder maps its 2-byte response, read as
a big-endian unsigned 16-bit integer, to that integer divided by 1000;
bytes 0x03 0xE9 decode to 1.001 and 0x03 0xEA to 1.002. -/
theorem C7_version_decode (self : BattLabOne) :
    (∀ bs : List Nat,
      (postprocess_apply (transactions Cmd.get_version).postprocess bs self).1 =
        Value.num ((fromBytesBE bs : ℚ) / 1000)) ∧
    (postprocess_apply (transactions Cmd.get_version).postprocess [3, 233] self).1 =
      Value.num (1.001 : ℚ) ∧
    (postprocess_apply (transactions Cmd.get_version).postprocess [3, 234] self).1 =
      Value.num (1.002 : ℚ) := by
  refine ⟨fun bs => rfl, ?_, ?_⟩ <;>
    · simp [transactions, postprocess_apply, fromBytesBE]
      norm_num

end BattLab

namespace BattLab

/-! ### Transaction engine lemmas -/

lemma settle_fields (self : BattLabOne) (t : Transaction) :
    (settle self t).sp = self.sp ∧
    (settle self t).calibration_data = self.calibration_data ∧
    (settle self t).cal_adj = self.cal_adj ∧
    (settle self t).offset = self.offset ∧
    (settle self t).low_current = self.low_current := by
  unfold settle BattLabOne.sleep
  split <;> exact ⟨rfl, rfl, rfl, rfl, rfl⟩

lemma settle_slept_zero (self : BattLabOne) (t : Transaction)
    (h : t.response_size = 0) :
    (settle self t).slept = self.slept ++ [(1 / 100 : ℚ)] := by
  simp [settle, h, BattLabOne.sleep]

lemma voltage_update_fields {self : BattLabOne} {c : Cmd} {s' : BattLabOne}
    (h : voltage_update self c = .ok s') :
    s'.sp = self.sp ∧ s'.calibration_data = self.calibration_data ∧
    s'.low_current = self.low_current ∧ s'.slept = self.slept := by
  unfold voltage_update at h
  split at h
  · split at h
    · split at h
      · injection h with h
        subst h
        exact ⟨rfl, rfl, rfl, rfl⟩
      · cases h
    · cases h
  · injection h with h
    subst h
    exact ⟨rfl, rfl, rfl, rfl⟩

lemma voltage_update_not {self : BattLabOne} {c : Cmd}
    (h : strStartsWith c.name "set_voltage_" = false) :
    voltage_update self c = .ok self := by
  simp [voltage_update, h]

lemma current_update_fields (self : BattLabOne) (c : Cmd) :
    (current_update self c).sp = self.sp ∧
    (current_update self c).calibration_data = self.calibration_data ∧
    (current_update self c).cal_adj = self.cal_adj ∧
    (current_update self c).offset = self.offset ∧
    (current_update self c).slept = self.slept := by
  unfold current_update
  split <;> exact ⟨rfl, rfl, rfl, rfl, rfl⟩

lemma current_update_not {self : BattLabOne} {c : Cmd}
    (h : strStartsWith c.name "set_current_" = false) :
    current_update self c = self := by
  simp [current_update, h]

lemma postprocess_apply_fields (p : Postprocess) (response : List Nat) (self : BattLabOne) :
    (postprocess_apply p response self).2.sp = self.sp ∧
    (postprocess_apply p response self).2.calibration_data = self.calibration_data ∧
    (postprocess_apply p response self).2.cal_adj = self.cal_adj ∧
    (postprocess_apply p response self).2.offset = self.offset ∧
    (postprocess_apply p response self).2.low_current = self.low_current := by
  cases p <;> exact ⟨rfl, rfl, rfl, rfl, rfl⟩

lemma postprocess_apply_slept (p : Postprocess) (response : List Nat) (self : BattLabOne) :
    (postprocess_apply p response self).2.slept = self.slept ∨
    (postprocess_apply p response self).2.slept = self.slept ++ [(1 : ℚ)] := by
  cases p
  · exact Or.inl rfl
  · exact Or.inl rfl
  · exact Or.inl rfl
  · exact Or.inr rfl

/-- Inversion of a successful transaction: the read succeeded (so the
response size fitted the available input), and the final value and state
come from postprocess applied after the two session-state update steps. -/
lemma do_transaction_ok {self : BattLabOne} {c : Cmd} {v : Value} {self' : BattLabOne}
    (h : do_transaction self c = .ok (v, self')) :
    (transactions c).response_size ≤ self.sp.input.length ∧
    ∃ s3,
      voltage_update
        (settle
          { self with
            sp := ⟨self.sp.input.drop (transactions c).response_size,
                   self.sp.output ++ (transactions c).cmd⟩ }
          (transactions c)) c = .ok s3 ∧
      (v, self') =
        postprocess_apply (transactions c).postprocess
          (self.sp.input.take (transactions c).response_size)
          (current_update s3 c) := by
  unfold do_transaction SerialPort.read SerialPort.write at h
  simp only at h
  split at h
  case h_1 x e heq => cases h
  case h_2 x response sp1 heq =>
    split at heq
    case isFalse hn => cases heq
    case isTrue hn =>
      injection heq with heq
      injection heq with hresp hsp1
      subst hresp
      subst hsp1
      split at h
      case h_1 e heq2 => cases h
      case h_2 s3 heq2 =>
        injection h with h
        exact ⟨hn, s3, heq2, h.symm⟩

end BattLab

namespace BattLab

/-- Forward computation of a `set_voltage_*` transaction with a loaded
17-entry calibration table. -/
lemma voltage_effect (c : Cmd) {ci oi : Nat} (self : BattLabOne) (table : List Nat)
    (a o : Nat)
    (hci : cal_indexes c = some ci) (hoi : offset_indexes c = some oi)
    (hsv : strStartsWith c.name "set_voltage_" = true)
    (hsc : strStartsWith c.name "set_current_" = false)
    (hrs : (transactions c).response_size = 0)
    (hpp : (transactions c).postprocess = Postprocess.hex)
    (hcd : self.calibration_data = some table)
    (ha : table.get? ci = some a) (ho : table.get? oi = some o) :
    do_transaction self c =
      .ok (Value.hex [],
        { self with
          sp := ⟨self.sp.input, self.sp.output ++ (transactions c).cmd⟩,
          cal_adj := some ((a : ℚ) / 1000),
          offset := some o,
          slept := self.slept ++ [(1 / 100 : ℚ)] }) := by
  have ha' : table[ci]? = some a := by rw [← List.get?_eq_getElem?]; exact ha
  have ho' : table[oi]? = some o := by rw [← List.get?_eq_getElem?]; exact ho
  obtain ⟨⟨inp, outp⟩, cd, ca, off, lc, sl⟩ := self
  simp only at hcd
  subst hcd
  simp [do_transaction, SerialPort.write, SerialPort.read, settle, BattLabOne.sleep,
    voltage_update, current_update, postprocess_apply, hrs, hsv, hsc, hpp, hci, hoi,
    ha', ho']

/-- Forward computation of any zero-response command that is not a
`set_voltage_*` command: the engine writes the byte, reads nothing,
sleeps 10 ms, and applies the postprocess. -/
lemma do_transaction_plain (c : Cmd) (self : BattLabOne)
    (hsv : strStartsWith c.name "set_voltage_" = false)
    (hrs : (transactions c).response_size = 0) :
    do_transaction self c =
      .ok (postprocess_apply (transactions c).postprocess []
        (current_update
          { self with
            sp := ⟨self.sp.input, self.sp.output ++ (transactions c).cmd⟩,
            slept := self.slept ++ [(1 / 100 : ℚ)] } c)) := by
  obtain ⟨⟨inp, outp⟩, cd, ca, off, lc, sl⟩ := self
  simp [do_transaction, SerialPort.write, SerialPort.read, settle, BattLabOne.sleep,
    voltage_update, hrs, hsv]

end BattLab

namespace BattLab

/-- Claim C2: with a loaded 17-entry calibration table, executing any
`set_voltage_<X>` command sets `cal_adj` to `table[cal_indexes[X]] / 1000`
and `offset` to `table[offset_indexes[X]]` unmodified, regardless of the
previous session state; issuing `set_voltage_1v2` then `set_voltage_3v7`
overwrites both with the second command's values (last-write-wins). -/
theorem C2_voltage_sets_session :
    (∀ (c : Cmd) (ci oi : Nat), cal_indexes c = some ci → offset_indexes c = some oi →
      ∀ (self : BattLabOne) (table : List Nat),
        self.calibration_data = some table → table.length = 17 →
        ∃ v self', do_transaction self c = .ok (v, self') ∧
          self'.cal_adj = some ((table.getD ci 0 : ℚ) / 1000) ∧
          self'.offset = some (table.getD oi 0) ∧
          self'.calibration_data = some table) ∧
    (∀ (self : BattLabOne) (table : List Nat),
      self.calibration_data = some table → table.length = 17 →
      ∃ v1 s1 v2 s2,
        do_transaction self Cmd.set_voltage_1v2 = .ok (v1, s1) ∧
        s1.cal_adj = some ((table.getD 0 0 : ℚ) / 1000) ∧
        s1.offset = some (table.getD 8 0) ∧
        do_transaction s1 Cmd.set_voltage_3v7 = .ok (v2, s2) ∧
        s2.cal_adj = some ((table.getD 5 0 : ℚ) / 1000) ∧
        s2.offset = some (table.getD 14 0)) := by
  constructor
  · intro c ci oi hci hoi self table hcd h17
    cases c
    all_goals try (exact Option.noConfusion hci)
    case set_voltage_1v2 =>
      simp only [cal_indexes, offset_indexes, Option.some.injEq] at hci hoi
      subst hci; subst hoi
      exact ⟨_, _, voltage_effect Cmd.set_voltage_1v2 self table _ _ rfl rfl (by decide)
        (by decide) rfl rfl hcd (get?_of_lt table 0 (by omega)) (get?_of_lt table 8 (by omega)),
        rfl, rfl, hcd⟩
    case set_voltage_1v5 =>
      simp only [cal_indexes, offset_indexes, Option.some.injEq] at hci hoi
      subst hci; subst hoi
      exact ⟨_, _, voltage_effect Cmd.set_voltage_1v5 self table _ _ rfl rfl (by decide)
        (by decide) rfl rfl hcd (get?_of_lt table 1 (by omega)) (get?_of_lt table 9 (by omega)),
        rfl, rfl, hcd⟩
    case set_voltage_2v4 =>
      simp only [cal_indexes, offset_indexes, Option.some.injEq] at hci hoi
      subst hci; subst hoi
      exact ⟨_, _, voltage_effect Cmd.set_voltage_2v4 self table _ _ rfl rfl (by decide)
        (by decide) rfl rfl hcd (get?_of_lt table 2 (by omega)) (get?_of_lt table 10 (by omega)),
        rfl, rfl, hcd⟩
    case set_voltage_3v0 =>
      simp only [cal_indexes, offset_indexes, Option.some.injEq] at hci hoi
      subst hci; subst hoi
      exact ⟨_, _, voltage_effect Cmd.set_voltage_3v0 self table _ _ rfl rfl (by decide)
        (by decide) rfl rfl hcd (get?_of_lt table 3 (by omega)) (get?_of_lt table 11 (by omega)),
        rfl, rfl, hcd⟩
    case set_voltage_3v2 =>
      simp only [cal_indexes, offset_indexes, Option.some.injEq] at hci hoi
      subst hci; subst hoi
      exact ⟨_, _, voltage_effect Cmd.set_voltage_3v2 self table _ _ rfl rfl (by decide)
        (by decide) rfl rfl hcd (get?_of_lt table 3 (by omega)) (get?_of_lt table 12 (by omega)),
        rfl, rfl, hcd⟩
    case set_voltage_3v6 =>
      simp only [cal_indexes, offset_indexes, Option.some.injEq] at hci hoi
      subst hci; subst hoi
      exact ⟨_, _, voltage_effect Cmd.set_voltage_3v6 self table _ _ rfl rfl (by decide)
        (by decide) rfl rfl hcd (get?_of_lt table 4 (by omega)) (get?_of_lt table 13 (by omega)),
        rfl, rfl, hcd⟩
    case set_voltage_3v7 =>
      simp only [cal_indexes, offset_indexes, Option.some.injEq] at hci hoi
      subst hci; subst hoi
      exact ⟨_, _, voltage_effect Cmd.set_voltage_3v7 self table _ _ rfl rfl (by decide)
        (by decide) rfl rfl hcd (get?_of_lt table 5 (by omega)) (get?_of_lt table 14 (by omega)),
        rfl, rfl, hcd⟩
    case set_voltage_4v2 =>
      simp only [cal_indexes, offset_indexes, Option.some.injEq] at hci hoi
      subst hci; subst hoi
      exact ⟨_, _, voltage_effect Cmd.set_voltage_4v2 self table _ _ rfl rfl (by decide)
        (by decide) rfl rfl hcd (get?_of_lt table 6 (by omega)) (get?_of_lt table 15 (by omega)),
        rfl, rfl, hcd⟩
    case set_voltage_4v5 =>
      simp only [cal_indexes, offset_indexes, Option.some.injEq] at hci hoi
      subst hci; subst hoi
      exact ⟨_, _, voltage_effect Cmd.set_voltage_4v5 self table _ _ rfl rfl (by decide)
        (by decide) rfl rfl hcd (get?_of_lt table 7 (by omega)) (get?_of_lt table 16 (by omega)),
        rfl, rfl, hcd⟩
  · intro self table hcd h17
    have h1 := voltage_effect Cmd.set_voltage_1v2 self table _ _ rfl rfl (by decide)
      (by decide) rfl rfl hcd (get?_of_lt table 0 (by omega)) (get?_of_lt table 8 (by omega))
    have h2 := voltage_effect Cmd.set_voltage_3v7
      { self with
        sp := ⟨self.sp.input, self.sp.output ++ (transactions Cmd.set_voltage_1v2).cmd⟩,
        cal_adj := some ((table.getD 0 0 : ℚ) / 1000),
        offset := some (table.getD 8 0),
        slept := self.slept ++ [(1 / 100 : ℚ)] } table _ _ rfl rfl (by decide)
      (by decide) rfl rfl hcd (get?_of_lt table 5 (by omega)) (get?_of_lt table 14 (by omega))
    exact ⟨_, _, _, _, h1, rfl, rfl, h2, rfl, rfl⟩

/-- Witness for C2: with the sequential table 1000,1100,... ,
`set_voltage_1v2` yields `cal_adj = 1000/1000 = 1` and `offset = 1800`. -/
theorem C2_voltage_sets_session_witness :
    ∃ v self', do_transaction
        ⟨⟨[], []⟩, some [1000, 1100, 1200, 1300, 1400, 1500, 1600, 1700, 1800,
          1900, 2000, 2100, 2200, 2300, 2400, 2500, 2600], none, none, none, []⟩
        Cmd.set_voltage_1v2 = .ok (v, self') ∧
      self'.cal_adj = some 1 ∧ self'.offset = some 1800 := by
  obtain ⟨v, self', hrun, hca, hoff, -⟩ :=
    C2_voltage_sets_session.1 Cmd.set_voltage_1v2 0 8 rfl rfl
      ⟨⟨[], []⟩, some [1000, 1100, 1200, 1300, 1400, 1500, 1600, 1700, 1800,
        1900, 2000, 2100, 2200, 2300, 2400, 2500, 2600], none, none, none, []⟩
      [1000, 1100, 1200, 1300, 1400, 1500, 1600, 1700, 1800,
        1900, 2000, 2100, 2200, 2300, 2400, 2500, 2600] rfl rfl
  refine ⟨v, self', hrun, ?_, ?_⟩
  · rw [hca]; norm_num
  · rw [hoff]; decide

/-- Claim C6: `set_voltage_3v0` and `set_voltage_3v2` share calibration
scale slot 3, so for any loaded calibration table they produce the same
`cal_adj`. -/
theorem C6_shared_scale_slot :
    cal_indexes Cmd.set_voltage_3v0 = cal_indexes Cmd.set_voltage_3v2 ∧
    (∀ (self : BattLabOne) (table : List Nat),
      self.calibration_data = some table → table.length = 17 →
      ∃ v1 s1 v2 s2,
        do_transaction self Cmd.set_voltage_3v0 = .ok (v1, s1) ∧
        do_transaction self Cmd.set_voltage_3v2 = .ok (v2, s2) ∧
        s1.cal_adj = s2.cal_adj) := by
  refine ⟨rfl, fun self table hcd h17 => ?_⟩
  refine ⟨_, _, _, _,
    voltage_effect Cmd.set_voltage_3v0 self table _ _ rfl rfl (by decide) (by decide)
      rfl rfl hcd (get?_of_lt table 3 (by omega)) (get?_of_lt table 11 (by omega)),
    voltage_effect Cmd.set_voltage_3v2 self table _ _ rfl rfl (by decide) (by decide)
      rfl rfl hcd (get?_of_lt table 3 (by omega)) (get?_of_lt table 12 (by omega)),
    rfl⟩

/-- Witness for C6 at a concrete calibration table. -/
theorem C6_shared_scale_slot_witness :
    ∃ v1 s1 v2 s2,
      do_transaction
        ⟨⟨[], []⟩, some [1000, 1100, 1200, 1300, 1400, 1500, 1600, 1700, 1800,
          1900, 2000, 2100, 2200, 2300, 2400, 2500, 2600], none, none, none, []⟩
        Cmd.set_voltage_3v0 = .ok (v1, s1) ∧
      do_transaction
        ⟨⟨[], []⟩, some [1000, 1100, 1200, 1300, 1400, 1500, 1600, 1700, 1800,
          1900, 2000, 2100, 2200, 2300, 2400, 2500, 2600], none, none, none, []⟩
        Cmd.set_voltage_3v2 = .ok (v2, s2) ∧
      s1.cal_adj = s2.cal_adj :=
  C6_shared_scale_slot.2
    ⟨⟨[], []⟩, some [1000, 1100, 1200, 1300, 1400, 1500, 1600, 1700, 1800,
      1900, 2000, 2100, 2200, 2300, 2400, 2500, 2600], none, none, none, []⟩
    [1000, 1100, 1200, 1300, 1400, 1500, 1600, 1700, 1800,
      1900, 2000, 2100, 2200, 2300, 2400, 2500, 2600] rfl rfl

end BattLab

namespace BattLab

/-- Witness for C7 at a concrete session state. -/
theorem C7_version_decode_witness :
    (postprocess_apply (transactions Cmd.get_version).postprocess [3, 233]
      ⟨⟨[], []⟩, none, none, none, none, []⟩).1 = Value.num (1.001 : ℚ) ∧
    (postprocess_apply (transactions Cmd.get_version).postprocess [3, 234]
      ⟨⟨[], []⟩, none, none, none, none, []⟩).1 = Value.num (1.002 : ℚ) :=
  ⟨(C7_version_decode ⟨⟨[], []⟩, none, none, none, none, []⟩).2.1,
   (C7_version_decode ⟨⟨[], []⟩, none, none, none, none, []⟩).2.2⟩

/-- Every registered `set_voltage_*` command name does not also start
with `set_current_`. -/
lemma voltage_name_not_current (c : Cmd)
    (h : strStartsWith c.name "set_voltage_" = true) :
    strStartsWith c.name "set_current_" = false := by
  revert h
  cases c <;> decide

/-- Claim C5: commands that are neither `set_voltage_*` nor
`set_current_*` leave all three session-state fields unchanged; the
`set_current_*` commands preserve `cal_adj` and `offset`, and the
`set_voltage_*` commands preserve `low_current`, so only `set_voltage_*`
commands change the first two and only `set_current_low` /
`set_current_high` change the third; `set_current_low` sets
`low_current` to true and `set_current_high` sets it to false. -/
theorem C5_session_frame :
    (∀ (c : Cmd), strStartsWith c.name "set_voltage_" = false →
      strStartsWith c.name "set_current_" = false →
      ∀ (self : BattLabOne) (v : Value) (self' : BattLabOne),
        do_transaction self c = .ok (v, self') →
        self'.cal_adj = self.cal_adj ∧ self'.offset = self.offset ∧
        self'.low_current = self.low_current) ∧
    (∀ (self : BattLabOne) (v : Value) (self' : BattLabOne),
      do_transaction self Cmd.set_current_low = .ok (v, self') →
      self'.low_current = some true ∧ self'.cal_adj = self.cal_adj ∧
      self'.offset = self.offset) ∧
    (∀ (self : BattLabOne) (v : Value) (self' : BattLabOne),
      do_transaction self Cmd.set_current_high = .ok (v, self') →
      self'.low_current = some false ∧ self'.cal_adj = self.cal_adj ∧
      self'.offset = self.offset) ∧
    (∀ (c : Cmd), strStartsWith c.name "set_voltage_" = true →
      ∀ (self : BattLabOne) (v : Value) (self' : BattLabOne),
        do_transaction self c = .ok (v, self') →
        self'.low_current = self.low_current) := by
  refine ⟨?_, ?_, ?_, ?_⟩
  · intro c hsv hsc self v self' h
    obtain ⟨hn, s3, hvolt, hpair⟩ := do_transaction_ok h
    rw [voltage_update_not hsv] at hvolt
    injection hvolt with hs3
    subst hs3
    rw [current_update_not hsc] at hpair
    have hself' : self' =
        (postprocess_apply (transactions c).postprocess
          (self.sp.input.take (transactions c).response_size)
          (settle
            { self with
              sp := ⟨self.sp.input.drop (transactions c).response_size,
                     self.sp.output ++ (transactions c).cmd⟩ }
            (transactions c))).2 :=
      congrArg Prod.snd hpair
    obtain ⟨-, -, hca, hoff, hlc⟩ := postprocess_apply_fields (transactions c).postprocess
      (self.sp.input.take (transactions c).response_size)
      (settle
        { self with
          sp := ⟨self.sp.input.drop (transactions c).response_size,
                 self.sp.output ++ (transactions c).cmd⟩ }
        (transactions c))
    obtain ⟨-, -, sca, soff, slc⟩ := settle_fields
      { self with
        sp := ⟨self.sp.input.drop (transactions c).response_size,
               self.sp.output ++ (transactions c).cmd⟩ }
      (transactions c)
    rw [hself']
    exact ⟨by rw [hca, sca], by rw [hoff, soff], by rw [hlc, slc]⟩
  · intro self v self' h
    rw [do_transaction_plain Cmd.set_current_low self (by decide) rfl] at h
    have hcc : strStartsWith (Cmd.name Cmd.set_current_low) "set_current_" = true := by decide
    have hbe : (Cmd.name Cmd.set_current_low == "set_current_low") = true := by decide
    simp only [transactions, postprocess_apply, current_update, hcc, if_true, hbe] at h
    injection h with h
    injection h with hv hs
    rw [← hs]
    exact ⟨rfl, rfl, rfl⟩
  · intro self v self' h
    rw [do_transaction_plain Cmd.set_current_high self (by decide) rfl] at h
    have hcc : strStartsWith (Cmd.name Cmd.set_current_high) "set_current_" = true := by decide
    have hbe : (Cmd.name Cmd.set_current_high == "set_current_low") = false := by decide
    simp only [transactions, postprocess_apply, current_update, hcc, if_true, hbe] at h
    injection h with h
    injection h with hv hs
    rw [← hs]
    exact ⟨rfl, rfl, rfl⟩
  · intro c hsv self v self' h
    have hsc : strStartsWith c.name "set_current_" = false := voltage_name_not_current c hsv
    obtain ⟨hn, s3, hvolt, hpair⟩ := do_transaction_ok h
    rw [current_update_not hsc] at hpair
    have hself' : self' =
        (postprocess_apply (transactions c).postprocess
          (self.sp.input.take (transactions c).response_size) s3).2 :=
      congrArg Prod.snd hpair
    rw [hself',
      (postprocess_apply_fields (transactions c).postprocess
        (self.sp.input.take (transactions c).response_size) s3).2.2.2.2,
      (voltage_update_fields hvolt).2.2.1,
      (settle_fields _ (transactions c)).2.2.2.2]

/-- Witness for C5: a `set_psu_on` run preserves all three fields; from
a state with `cal_adj = 7`, `offset = 9` the two current-range commands
flip only `low_current`; and a `set_voltage_1v2` run from a state with
`low_current = true` preserves it. -/
theorem C5_session_frame_witness :
    ∃ v1 s1 v2 s2 v3 s3 v4 s4,
      do_transaction ⟨⟨[], []⟩, none, some 7, some 9, some true, []⟩ Cmd.set_psu_on
        = .ok (v1, s1) ∧
      s1.cal_adj = some 7 ∧ s1.offset = some 9 ∧ s1.low_current = some true ∧
      do_transaction ⟨⟨[], []⟩, none, some 7, some 9, none, []⟩ Cmd.set_current_low
        = .ok (v2, s2) ∧
      s2.low_current = some true ∧ s2.cal_adj = some 7 ∧ s2.offset = some 9 ∧
      do_transaction ⟨⟨[], []⟩, none, some 7, some 9, none, []⟩ Cmd.set_current_high
        = .ok (v3, s3) ∧
      s3.low_current = some false ∧ s3.cal_adj = some 7 ∧ s3.offset = some 9 ∧
      do_transaction ⟨⟨[], []⟩, some [1000, 1100, 1200, 1300, 1400, 1500, 1600, 1700,
          1800, 1900, 2000, 2100, 2200, 2300, 2400, 2500, 2600], none, none, some true, []⟩
        Cmd.set_voltage_1v2 = .ok (v4, s4) ∧
      s4.low_current = some true := by
  have h1 := do_transaction_plain Cmd.set_psu_on
    ⟨⟨[], []⟩, none, some 7, some 9, some true, []⟩ (by decide) rfl
  have h2 := do_transaction_plain Cmd.set_current_low
    ⟨⟨[], []⟩, none, some 7, some 9, none, []⟩ (by decide) rfl
  have h3 := do_transaction_plain Cmd.set_current_high
    ⟨⟨[], []⟩, none, some 7, some 9, none, []⟩ (by decide) rfl
  have h4 := voltage_effect Cmd.set_voltage_1v2
    ⟨⟨[], []⟩, some [1000, 1100, 1200, 1300, 1400, 1500, 1600, 1700,
      1800, 1900, 2000, 2100, 2200, 2300, 2400, 2500, 2600], none, none, some true, []⟩
    [1000, 1100, 1200, 1300, 1400, 1500, 1600, 1700,
      1800, 1900, 2000, 2100, 2200, 2300, 2400, 2500, 2600] _ _ rfl rfl (by decide)
    (by decide) rfl rfl rfl (get?_of_lt _ 0 (by decide)) (get?_of_lt _ 8 (by decide))
  obtain ⟨f1, f2, f3⟩ := C5_session_frame.1 Cmd.set_psu_on (by decide) (by decide) _ _ _ h1
  obtain ⟨g2a, g2b, g2c⟩ := C5_session_frame.2.1 _ _ _ h2
  obtain ⟨g3a, g3b, g3c⟩ := C5_session_frame.2.2.1 _ _ _ h3
  have g4 := C5_session_frame.2.2.2 Cmd.set_voltage_1v2 (by decide) _ _ _ h4
  exact ⟨_, _, _, _, _, _, _, _, h1, by rw [f1], by rw [f2], by rw [f3],
    h2, g2a, by rw [g2b], by rw [g2c],
    h3, g3a, by rw [g3b], by rw [g3c],
    h4, by rw [g4]⟩

/-- Claim C8: every zero-response-length command sleeps the fixed 10 ms
settle delay before the engine returns, and `reset` additionally sleeps
its fixed 1 second settle delay, unconditionally (the engine performs no
firmware-version gating). -/
theorem C8_settle_delays :
    (∀ (c : Cmd) (self : BattLabOne) (v : Value) (self' : BattLabOne),
      (transactions c).response_size = 0 →
      do_transaction self c = .ok (v, self') →
      ∃ rest, self'.slept = self.slept ++ (1 / 100 : ℚ) :: rest) ∧
    (∀ (self : BattLabOne) (v : Value) (self' : BattLabOne),
      do_transaction self Cmd.reset = .ok (v, self') →
      self'.slept = self.slept ++ [(1 / 100 : ℚ), 1]) := by
  constructor
  · intro c self v self' hrs h
    obtain ⟨hn, s3, hvolt, hpair⟩ := do_transaction_ok h
    have hself' : self' =
        (postprocess_apply (transactions c).postprocess
          (self.sp.input.take (transactions c).response_size)
          (current_update s3 c)).2 :=
      congrArg Prod.snd hpair
    have h1 := (voltage_update_fields hvolt).2.2.2
    have h2 := settle_slept_zero
      { self with
        sp := ⟨self.sp.input.drop (transactions c).response_size,
               self.sp.output ++ (transactions c).cmd⟩ }
      (transactions c) hrs
    have h3 := (current_update_fields s3 c).2.2.2.2
    rcases postprocess_apply_slept (transactions c).postprocess
      (self.sp.input.take (transactions c).response_size) (current_update s3 c) with h4 | h4
    · exact ⟨[], by rw [hself', h4, h3, h1, h2]⟩
    · refine ⟨[1], ?_⟩
      rw [hself', h4, h3, h1, h2]
      simp
  · intro self v self' h
    rw [do_transaction_plain Cmd.reset self (by decide) rfl] at h
    rw [current_update_not (by decide)] at h
    simp only [transactions, postprocess_apply, BattLabOne.sleep] at h
    injection h with h
    injection h with hv hs
    rw [← hs]
    simp

/-- Witness for C8: a fresh-session `set_psu_on` sleeps 10 ms, and a
fresh-session `reset` sleeps 10 ms then 1 s. -/
theorem C8_settle_delays_witness :
    ∃ v1 s1 v2 s2 rest,
      do_transaction ⟨⟨[], []⟩, none, none, none, none, []⟩ Cmd.set_psu_on
        = .ok (v1, s1) ∧
      s1.slept = [] ++ (1 / 100 : ℚ) :: rest ∧
      do_transaction ⟨⟨[], []⟩, none, none, none, none, []⟩ Cmd.reset
        = .ok (v2, s2) ∧
      s2.slept = [] ++ [(1 / 100 : ℚ), 1] := by
  have h1 := do_transaction_plain Cmd.set_psu_on
    ⟨⟨[], []⟩, none, none, none, none, []⟩ (by decide) rfl
  have h2 := do_transaction_plain Cmd.reset
    ⟨⟨[], []⟩, none, none, none, none, []⟩ (by decide) rfl
  obtain ⟨rest, hrest⟩ := C8_settle_delays.1 Cmd.set_psu_on _ _ _ rfl h1
  have hreset := C8_settle_delays.2 _ _ _ h2
  exact ⟨_, _, _, _, rest, h1, hrest, h2, hreset⟩

end BattLab

namespace BattLab

/-- Modelled from the spec: the literal wire-protocol table of section 6,
giving each registered command's single ASCII command byte and fixed
response length.  This is written from the specification's table, to be
compared against `transactions`, which is written from the source. -/
def spec_wire_table : Cmd → Nat × Nat
  | .set_voltage_1v2 => (97, 0)    -- 'a'
  | .set_voltage_1v5 => (98, 0)    -- 'b'
  | .set_voltage_2v4 => (99, 0)    -- 'c'
  | .set_voltage_3v0 => (100, 0)   -- 'd'
  | .set_voltage_3v2 => (111, 0)   -- 'o'
  | .set_voltage_3v6 => (110, 0)   -- 'n'
  | .set_voltage_3v7 => (101, 0)   -- 'e'
  | .set_voltage_4v2 => (102, 0)   -- 'f'
  | .set_voltage_4v5 => (103, 0)   -- 'g'
  | .set_psu_on => (104, 0)        -- 'h'
  | .set_psu_off => (105, 0)       -- 'i'
  | .get_calibration => (106, 34)  -- 'j'
  | .get_config => (109, 4)        -- 'm'
  | .get_version => (112, 2)       -- 'p'
  | .set_current_low => (107, 0)   -- 'k'
  | .set_current_high => (108, 0)  -- 'l'
  | .set_averages_1 => (115, 0)    -- 's'
  | .set_averages_4 => (116, 0)    -- 't'
  | .set_averages_16 => (117, 0)   -- 'u'
  | .set_averages_64 => (118, 0)   -- 'v'
  | .reset => (119, 0)             -- 'w'
  | .set_sample_trig => (120, 0)   -- 'x'
  | .set_sample_off => (121, 0)    -- 'y'
  | .set_sample_on => (122, 0)     -- 'z'

/-- Claim C3: every registered command's stored wire byte and response
length equal the literal table of spec section 6, and a successful
transaction writes exactly the command's wire bytes to the stream and
consumes exactly its declared response length from the input. -/
theorem C3_wire_table :
    (∀ c : Cmd, (transactions c).cmd = [(spec_wire_table c).1] ∧
      (transactions c).response_size = (spec_wire_table c).2) ∧
    (∀ (c : Cmd) (self : BattLabOne) (v : Value) (self' : BattLabOne),
      do_transaction self c = .ok (v, self') →
      (transactions c).response_size ≤ self.sp.input.length ∧
      self'.sp.output = self.sp.output ++ (transactions c).cmd ∧
      self'.sp.input = self.sp.input.drop (transactions c).response_size ∧
      self.sp.input =
        self.sp.input.take (transactions c).response_size ++ self'.sp.input) := by
  constructor
  · intro c
    cases c <;> exact ⟨rfl, rfl⟩
  · intro c self v self' h
    obtain ⟨hn, s3, hvolt, hpair⟩ := do_transaction_ok h
    have hself' : self' =
        (postprocess_apply (transactions c).postprocess
          (self.sp.input.take (transactions c).response_size)
          (current_update s3 c)).2 :=
      congrArg Prod.snd hpair
    have hsp : self'.sp =
        ⟨self.sp.input.drop (transactions c).response_size,
         self.sp.output ++ (transactions c).cmd⟩ := by
      rw [hself',
        (postprocess_apply_fields (transactions c).postprocess
          (self.sp.input.take (transactions c).response_size) (current_update s3 c)).1,
        (current_update_fields s3 c).1,
        (voltage_update_fields hvolt).1,
        (settle_fields _ (transactions c)).1]
    refine ⟨hn, ?_, ?_, ?_⟩
    · rw [hsp]
    · rw [hsp]
    · rw [hsp]
      exact (List.take_append_drop _ _).symm

/-- Witness for C3: a concrete successful `set_psu_on` run writes byte
104 and consumes nothing. -/
theorem C3_wire_table_witness :
    (transactions Cmd.get_version).cmd = [(spec_wire_table Cmd.get_version).1] ∧
    ∃ v s',
      do_transaction ⟨⟨[], []⟩, none, none, none, none, []⟩ Cmd.set_psu_on = .ok (v, s') ∧
      s'.sp.output = [] ++ (transactions Cmd.set_psu_on).cmd ∧
      s'.sp.input = [] := by
  have h1 := do_transaction_plain Cmd.set_psu_on
    ⟨⟨[], []⟩, none, none, none, none, []⟩ (by decide) rfl
  obtain ⟨-, hout, hin, -⟩ := C3_wire_table.2 Cmd.set_psu_on _ _ _ h1
  exact ⟨(C3_wire_table.1 Cmd.get_version).1, _, _, h1, hout, hin⟩

end BattLab

namespace BattLab

lemma toU16BE_len (raw : List Nat) : (toU16BE raw).length = raw.length / 2 := by
  induction raw using toU16BE.induct with
  | case1 a b rest ih =>
    simp [toU16BE, ih]
    omega
  | case2 l h =>
    cases l with
    | nil => simp [toU16BE]
    | cons a t =>
      cases t with
      | nil => simp [toU16BE]
      | cons b t2 => exact absurd rfl (h a b t2)

lemma toU16BE_get : ∀ (raw : List Nat) (i a b : Nat),
    raw.get? (2 * i) = some a → raw.get? (2 * i + 1) = some b →
    (toU16BE raw).get? i = some (a * 256 + b)
  | x :: y :: rest, 0, a, b, h1, h2 => by
    simp at h1 h2
    simp [toU16BE, h1, h2]
  | x :: y :: rest, (i + 1), a, b, h1, h2 => by
    have e : 2 * (i + 1) = (2 * i) + 2 := by ring
    rw [e] at h1 h2
    simp only [List.get?] at h1 h2
    have ih := toU16BE_get rest i a b h1 h2
    simpa [toU16BE] using ih
  | [], i, a, b, h1, h2 => by simp at h1
  | [x], i, a, b, h1, h2 => by
    rcases i with _ | j
    · simp at h2
    · have e : 2 * (j + 1) = (2 * j) + 2 := by ring
      rw [e] at h1
      simp [List.get?] at h1

/-- Forward computation of a transaction with a nonempty fixed-size
response (such as `get_calibration`) when exactly the payload plus some
trailing bytes are available on the input. -/
lemma do_transaction_read (c : Cmd) (self : BattLabOne) (payload rest : List Nat)
    (hsv : strStartsWith c.name "set_voltage_" = false)
    (hrs : (transactions c).response_size = payload.length)
    (hnz : (transactions c).response_size ≠ 0)
    (hin : self.sp.input = payload ++ rest) :
    do_transaction self c =
      .ok (postprocess_apply (transactions c).postprocess payload
        (current_update
          { self with sp := ⟨rest, self.sp.output ++ (transactions c).cmd⟩ } c)) := by
  rw [hrs] at hnz
  obtain ⟨⟨inp, outp⟩, cd, ca, off, lc, sl⟩ := self
  simp only at hin
  subst hin
  simp [do_transaction, SerialPort.write, SerialPort.read, hrs, settle, voltage_update,
    hsv, hnz, List.take_left, List.drop_left]

/-- Claim C9: the calibration load fails with `ProtocolError` whenever
the payload is not exactly 34 bytes (`struct.unpack('>17H', ...)` raises
`struct.error`), and on a 34-byte payload it stores exactly the 17
big-endian 16-bit values, in order. -/
theorem C9_calibration_load :
    (∀ raw : List Nat, raw.length ≠ 34 →
      parse_calibration raw = .error Err.protocolError) ∧
    (∀ raw : List Nat, raw.length = 34 →
      parse_calibration raw = .ok (toU16BE raw) ∧ (toU16BE raw).length = 17) ∧
    (∀ (raw : List Nat) (i a b : Nat),
      raw.get? (2 * i) = some a → raw.get? (2 * i + 1) = some b →
      (toU16BE raw).get? i = some (a * 256 + b)) ∧
    (∀ (self : BattLabOne) (raw rest : List Nat),
      self.sp.input = raw ++ rest → raw.length = 34 →
      calibrate self =
        .ok { self with
          sp := ⟨rest, self.sp.output ++ (transactions Cmd.get_calibration).cmd⟩,
          calibration_data := some (toU16BE raw) }) := by
  refine ⟨?_, ?_, toU16BE_get, ?_⟩
  · intro raw h
    simp [parse_calibration, unpack17H, h]
  · intro raw h
    refine ⟨by simp [parse_calibration, unpack17H, h], ?_⟩
    rw [toU16BE_len, h]
  · intro self raw rest hin h34
    have hrun := do_transaction_read Cmd.get_calibration self raw rest (by decide)
      (by rw [h34]; rfl) (by decide) hin
    rw [current_update_not (by decide)] at hrun
    unfold calibrate
    rw [hrun]
    simp only [transactions, postprocess_apply]
    have hparse : parse_calibration raw = .ok (toU16BE raw) := by
      simp [parse_calibration, unpack17H, h34]
    rw [hparse]

/-- Witness for C9: loading the 34-byte payload 0,1,...,33 stores the 17
values 1, 515, 1029, ... in order. -/
theorem C9_calibration_load_witness :
    parse_calibration [0, 1, 2] = .error Err.protocolError ∧
    calibrate ⟨⟨List.range 34, []⟩, none, none, none, none, []⟩ =
      .ok ⟨⟨[], [106]⟩, some (toU16BE (List.range 34)), none, none, none, []⟩ ∧
    (toU16BE (List.range 34)).get? 0 = some 1 := by
  refine ⟨C9_calibration_load.1 [0, 1, 2] (by decide), ?_, ?_⟩
  · have h := C9_calibration_load.2.2.2 ⟨⟨List.range 34, []⟩, none, none, none, none, []⟩
      (List.range 34) [] (by simp) (by simp)
    simpa using h
  · exact C9_calibration_load.2.2.1 (List.range 34) 0 0 1 (by simp) (by simp)

end BattLab
